import Mathlib

/-!
Verification of the LabForCode execution pipeline against its source.

The development shallowly embeds the parts of the TypeScript source that the
claims are about:

* `lib/executor.ts` (`CodeExecutor`): `LANGUAGE_CONFIGS`, `runCommand`,
  `executeLocally`, the Java class-name detection, and the template
  substitution done with JavaScript `String.replace(/.../g, ...)`;
* `lib/queue.ts`: the Bull-backed execution queue (`addExecutionJob`,
  `setupJobProcessing`'s result classification, `cancelJob`);
* `lib/database.ts`: `DatabaseService.updateSubmission`;
* `lib/webhook.ts`: `sendWebhook`.

Child processes are abstracted by the events the Node.js runtime delivers to
the handlers that `runCommand` registers (`close` with a nullable exit code,
`error`, stream data, and whether the runner's own timeout fired); everything
downstream of those events is embedded as written in the source.
-/

namespace LabForCode

/-- The `ExecutionResult` interface of `lib/executor.ts`: what one call of
`runCommand` / `executeLocally` resolves with.  `executionTime` is in
milliseconds, `memoryUsage` in bytes. -/
structure ExecutionResult where
  stdout : String
  stderr : String
  exitCode : Int
  executionTime : Nat
  memoryUsage : Nat
  error : Option String := none
  killed : Option Bool := none
  timedOut : Option Bool := none
  compileOutput : Option String := none
deriving Repr, DecidableEq

/-- The `LanguageConfig` interface of `lib/executor.ts` (fields the embedded
code paths read; `name`, `dockerImage`, `cpuLimit` are omitted as no embedded
path depends on them).  `timeout` is in milliseconds. -/
structure LanguageConfig where
  id : String
  extension : String
  compileCommand : Option String := none
  runCommand : String
  timeout : Nat
  memoryLimit : Nat
deriving Repr, DecidableEq

/-- `LANGUAGE_CONFIGS.python`, with the default compiler paths (no `*_PATH`
environment override) and `isWindows = false`, the configuration the Linux
deployment runs with. -/
def pythonConfig : LanguageConfig :=
  { id := "python", extension := "py", runCommand := "python {file}",
    timeout := 10000, memoryLimit := 128 * 1024 * 1024 }

/-- `LANGUAGE_CONFIGS.javascript`. -/
def javascriptConfig : LanguageConfig :=
  { id := "javascript", extension := "js", runCommand := "node {file}",
    timeout := 10000, memoryLimit := 128 * 1024 * 1024 }

/-- `LANGUAGE_CONFIGS.java`. -/
def javaConfig : LanguageConfig :=
  { id := "java", extension := "java",
    compileCommand := some "javac {file}", runCommand := "java {classname}",
    timeout := 15000, memoryLimit := 256 * 1024 * 1024 }

/-- `LANGUAGE_CONFIGS.cpp` (non-Windows branch of the template strings). -/
def cppConfig : LanguageConfig :=
  { id := "cpp", extension := "cpp",
    compileCommand := some "g++ -o {output} {file} -std=c++17",
    runCommand := "./{output}",
    timeout := 15000, memoryLimit := 128 * 1024 * 1024 }

/-- `LANGUAGE_CONFIGS.c` (non-Windows branch of the template strings). -/
def cConfig : LanguageConfig :=
  { id := "c", extension := "c",
    compileCommand := some "gcc -o {output} {file} -std=c17 -lm",
    runCommand := "./{output}",
    timeout := 15000, memoryLimit := 128 * 1024 * 1024 }

/-- `LANGUAGE_CONFIGS.go`. -/
def goConfig : LanguageConfig :=
  { id := "go", extension := "go", runCommand := "go run {file}",
    timeout := 10000, memoryLimit := 128 * 1024 * 1024 }

/-- `LANGUAGE_CONFIGS.rust` (non-Windows branch of the template strings). -/
def rustConfig : LanguageConfig :=
  { id := "rust", extension := "rs",
    compileCommand := some "rustc {file} -o {output}",
    runCommand := "./{output}",
    timeout := 20000, memoryLimit := 256 * 1024 * 1024 }

/-- The `LANGUAGE_CONFIGS` record of `lib/executor.ts` as a key/value list. -/
def LANGUAGE_CONFIGS : List (String × LanguageConfig) :=
  [("python", pythonConfig), ("javascript", javascriptConfig),
   ("java", javaConfig), ("cpp", cppConfig), ("c", cConfig),
   ("go", goConfig), ("rust", rustConfig)]

/-! ## JavaScript string / regex helpers used by the executor -/

/-- Matches a literal character-list pattern at the head of the input; on
success returns the rest of the input.  This is the primitive both the
template substitution (`String.replace` with a literal-text regex) and the
Java class-name regex are built from. -/
def stripLit : List Char → List Char → Option (List Char)
  | [], rest => some rest
  | _, [] => none
  | p :: ps, c :: cs => if c = p then stripLit ps cs else none

/-- Fuel-indexed worker for JavaScript `String.replace(/pat/g, repl)` with a
literal pattern: scan left to right, replacing every (non-overlapping)
occurrence.  Each step consumes at least one input character when `pat` is
nonempty, so fuel equal to the input length is always sufficient; on fuel
exhaustion the remaining input is returned unchanged. -/
def replaceAllAux (pat repl : List Char) : Nat → List Char → List Char
  | 0, l => l
  | Nat.succ fuel, l =>
    match l with
    | [] => []
    | c :: cs =>
      match stripLit pat (c :: cs) with
      | some rest => repl ++ replaceAllAux pat repl fuel rest
      | none => c :: replaceAllAux pat repl fuel cs

/-- JavaScript `s.replace(/pat/g, repl)` for a literal (nonempty) pattern, the
operation `executeLocally` and `buildDockerCommand` apply to the command
templates.  The executor only ever uses the nonempty patterns `\x7bfile\x7d`,
`\x7boutput\x7d` and `\x7bclassname\x7d`; for an empty pattern the input is
returned unchanged. -/
def jsReplaceAll (s pat repl : String) : String :=
  match pat.toList with
  | [] => s
  | p :: ps => String.mk (replaceAllAux (p :: ps) repl.toList s.toList.length s.toList)

/-- The three chained `.replace` calls `executeLocally` performs on a command
template immediately before invoking it:
`template.replace(/\x7bfile\x7d/g, filename).replace(/\x7boutput\x7d/g, output)
.replace(/\x7bclassname\x7d/g, classname)`. -/
def substituteTemplate (template filename output classname : String) : String :=
  jsReplaceAll (jsReplaceAll (jsReplaceAll template "{file}" filename) "{output}" output)
    "{classname}" classname

/-- JavaScript `\s` (whitespace class) on the characters that occur in source
code. -/
def isJsWhitespace (c : Char) : Bool :=
  c = ' ' || c = '\t' || c = '\n' || c = '\r' || c = '\x0b' || c = '\x0c'

/-- JavaScript `\w` (word-character class): ASCII letters, digits, underscore. -/
def isJsWordChar (c : Char) : Bool :=
  ('a' ≤ c && c ≤ 'z') || ('A' ≤ c && c ≤ 'Z') || ('0' ≤ c && c ≤ '9') || c = '_'

/-- Attempts the regex `public\s+class\s+(\w+)` at the current position.
Because whitespace, the literal letters and word characters are disjoint, the
backtracking regex is equivalent to this deterministic greedy scan. -/
def matchJavaClassAt (cs : List Char) : Option String :=
  match stripLit ("public".toList) cs with
  | none => none
  | some r1 =>
    let s1 := r1.span isJsWhitespace
    if s1.1.isEmpty then none
    else
      match stripLit ("class".toList) s1.2 with
      | none => none
      | some r2 =>
        let s2 := r2.span isJsWhitespace
        if s2.1.isEmpty then none
        else
          let s3 := s2.2.span isJsWordChar
          if s3.1.isEmpty then none else some (String.mk s3.1)

/-- `code.match(/public\s+class\s+(\w+)/)`: the capture of the first match,
scanning positions left to right. -/
def findJavaClass : List Char → Option String
  | [] => none
  | c :: cs =>
    match matchJavaClassAt (c :: cs) with
    | some n => some n
    | none => findJavaClass cs

/-- The class-name extraction `executeLocally` performs on Java sources. -/
def extractJavaClassName (code : String) : Option String :=
  findJavaClass code.toList

/-! ## runCommand: one spawned child -/

/-- The events the Node.js runtime delivers to the handlers one `runCommand`
call registers on its spawned child: either an `error` event (spawn failure),
or a `close` event whose `code` argument is `null` (here `none`) exactly when
the child was terminated by a signal; plus the bytes received on each stream
and whether the runner's own timeout fired (in which case `runCommand` had
sent SIGKILL and appended its marker to stderr). -/
structure ChildEvents where
  errorEvent : Option String := none
  closeCode : Option Int := none
  stdoutData : String := ""
  stderrData : String := ""
  timerFired : Bool := false
deriving Repr, DecidableEq

/-- JavaScript `code || 0` applied to the nullable `close` code: both `null`
and `0` are falsy, so a signal-terminated child (`code = null`) is reported
with exit code `0`. -/
def jsOrZero : Option Int → Int
  | none => 0
  | some c => if c = 0 then 0 else c

/-- The `ExecutionResult` that `CodeExecutor.runCommand` resolves with, as a
function of the child's events and the elapsed wall time in milliseconds.
On an `error` event it resolves with exit code `-1`; on `close` it resolves
with `exitCode: code || 0`, the captured streams (stderr carrying the
timeout marker when the timer fired), `memoryUsage: maxMemory` (which the
source never updates from `0`), and the `killed`/`timedOut` flags. -/
def runCommand (events : ChildEvents) (elapsedMs : Nat) : ExecutionResult :=
  match events.errorEvent with
  | some msg =>
      { stdout := "", stderr := msg, exitCode := -1, executionTime := elapsedMs,
        memoryUsage := 0, error := some "Process error" }
  | none =>
      { stdout := events.stdoutData
        stderr := events.stderrData ++ (if events.timerFired then "\nExecution timed out" else "")
        exitCode := jsOrZero events.closeCode
        executionTime := elapsedMs
        memoryUsage := 0
        killed := some false
        timedOut := some events.timerFired }

/-- The program and argument vector `runCommand` passes to `spawn`: the whole
expanded command line is handed to a shell as a single string — `sh -c` on
Unix-like systems, `cmd /C` on Windows. -/
def spawnArgv (isWin : Bool) (command : String) : String × List String :=
  if isWin then ("cmd", ["/C", command]) else ("sh", ["-c", command])

/-! ## executeLocally: one submission through the local executor -/

/-- The source file name and class name `executeLocally` computes before
writing the code to disk. -/
structure FilePlan where
  filename : String
  classname : String
deriving Repr, DecidableEq

/-- The filename/classname computation at the top of `executeLocally`: for
Java, the class name captured by `public\s+class\s+(\w+)` names the file,
falling back to `Main`; every other language writes `main.<extension>`. -/
def localFilePlan (config : LanguageConfig) (code : String) : FilePlan :=
  if config.id = "java" then
    match extractJavaClassName code with
    | some n => { filename := n ++ "." ++ config.extension, classname := n }
    | none => { filename := "Main." ++ config.extension, classname := "Main" }
  else { filename := "main." ++ config.extension, classname := "Main" }

/-- The expanded compile command `executeLocally` passes to `runCommand`
(placeholders substituted with the session-relative file name, the relative
output path `main`, and the detected class name), when the language has one. -/
def localCompileCommandLine (config : LanguageConfig) (code : String) : Option String :=
  config.compileCommand.map fun tmpl =>
    substituteTemplate tmpl (localFilePlan config code).filename "main"
      (localFilePlan config code).classname

/-- The expanded run command `executeLocally` passes to `runCommand`. -/
def localRunCommandLine (config : LanguageConfig) (code : String) : String :=
  substituteTemplate config.runCommand (localFilePlan config code).filename "main"
    (localFilePlan config code).classname

/-- The projection `executeLocally` applies to the run step's result: it
returns only `stdout`, `stderr`, `exitCode`, `executionTime`, `memoryUsage`,
dropping `killed`, `timedOut` and `error`. -/
def projectRunResult (r : ExecutionResult) : ExecutionResult :=
  { stdout := r.stdout, stderr := r.stderr, exitCode := r.exitCode,
    executionTime := r.executionTime, memoryUsage := r.memoryUsage }

/-- Whether `executeLocally` reaches the run step: it spawns the run child
unless the language has a compile command and the compile step's reported
exit code is non-zero (`if (compileResult.exitCode !== 0) return ...`). -/
def localRunsProgram (config : LanguageConfig) (compileEvents : ChildEvents)
    (compileElapsedMs : Nat) : Bool :=
  match config.compileCommand with
  | some _ => !((runCommand compileEvents compileElapsedMs).exitCode ≠ 0)
  | none => true

/-- The result data flow of `CodeExecutor.executeLocally`: when the language
has a compile command, the compile child runs first under `runCommand`; on a
non-zero reported exit code the function returns at once with empty stdout,
the compile step's stderr and exit code, and `error: "Compilation failed"`
(`compileOutput` is not set); otherwise the run child's result is returned
through `projectRunResult`. -/
def executeLocally (config : LanguageConfig) (_code : String)
    (compileEvents runEvents : ChildEvents) (compileElapsedMs runElapsedMs : Nat) :
    ExecutionResult :=
  match config.compileCommand with
  | some _ =>
    let compileResult := runCommand compileEvents compileElapsedMs
    if compileResult.exitCode ≠ 0 then
      { stdout := "", stderr := compileResult.stderr, exitCode := compileResult.exitCode,
        executionTime := compileResult.executionTime, memoryUsage := 0,
        error := some "Compilation failed" }
    else projectRunResult (runCommand runEvents runElapsedMs)
  | none => projectRunResult (runCommand runEvents runElapsedMs)

/-! ## The submission store: `DatabaseService.updateSubmission` -/

/-- The columns of the `submissions` table that the embedded code paths read
or write.  Timestamps are abstract ticks (`Nat`).  The legacy duplicates the
TypeScript layer also passes (`output`, `execution_time`, `memory_usage`,
`completed_at`) exist in no shipped schema and carry the same data as the
fields here, so they are not modelled separately. -/
structure SubmissionRow where
  id : String
  status : String
  stdout : Option String := none
  stderr : Option String := none
  compile_output : Option String := none
  message : Option String := none
  exit_code : Option Int := none
  callback_url : Option String := none
  created_at : Nat := 0
  finished_at : Option Nat := none
deriving Repr, DecidableEq

/-- The update objects passed to `DatabaseService.updateSubmission`: a field
is `some v` exactly when the caller's object carries that key.  `time_ms` is
the `time` column in milliseconds (the source divides by 1000 for seconds). -/
structure SubmissionUpdates where
  status : Option String := none
  stdout : Option String := none
  stderr : Option String := none
  compile_output : Option String := none
  message : Option String := none
  exit_code : Option Int := none
  time_ms : Option Nat := none
  finished_at : Option Nat := none
deriving Repr, DecidableEq

/-- The status list in `updateSubmission`'s SQL fallback clause
`finished_at = CASE WHEN status IN (...) THEN NOW() ELSE finished_at END`. -/
def finishedAtAutoStatuses : List String :=
  ["completed", "error", "timeout", "accepted", "runtime_error"]

/-- `DatabaseService.updateSubmission`: every key present in the update object
overwrites its column; `finished_at` is set to the supplied value when the
caller passes one, and otherwise by the SQL `CASE` fallback — which, since
PostgreSQL evaluates `SET` expressions against the pre-update row, tests the
submission's PREVIOUS status against `finishedAtAutoStatuses`. -/
def updateSubmission (row : SubmissionRow) (u : SubmissionUpdates) (now : Nat) :
    SubmissionRow :=
  { row with
    status := u.status.getD row.status
    stdout := match u.stdout with | some v => some v | none => row.stdout
    stderr := match u.stderr with | some v => some v | none => row.stderr
    compile_output := match u.compile_output with | some v => some v | none => row.compile_output
    message := match u.message with | some v => some v | none => row.message
    exit_code := match u.exit_code with | some v => some v | none => row.exit_code
    finished_at :=
      match u.finished_at with
      | some t => some t
      | none =>
        if row.status ∈ finishedAtAutoStatuses then some now else row.finished_at }

/-! ## The dispatcher: `lib/queue.ts` -/

/-- The `ExecutionJobData` payload `addExecutionJob` enqueues (resource-limit
options omitted; no embedded path reads them). -/
structure ExecutionJobData where
  submissionId : String
  language : String
  code : String
  input : String
deriving Repr, DecidableEq

/-- The Bull queue's job set, as (jobId, data) pairs in insertion order. -/
structure QueueState where
  jobs : List (String × ExecutionJobData)
deriving Repr, DecidableEq

/-- The job ids currently known to the queue. -/
def queueKeys (q : QueueState) : List String :=
  q.jobs.map Prod.fst

/-- `Queue.add` with an explicit `jobId` option, per Bull's documented
contract (the dependency is not part of this repository): if a job with
that id already exists the call resolves without adding anything; otherwise
the job is appended. -/
def queueAdd (q : QueueState) (jobId : String) (data : ExecutionJobData) : QueueState :=
  if jobId ∈ queueKeys q then q else { jobs := q.jobs ++ [(jobId, data)] }

/-- The `max_queue_size` value reported by `DatabaseService.getConfigInfo`. -/
def maxQueueSizeConfig : Nat := 100

/-- `addExecutionJob`: builds the job data and calls `queue.add("execute",
data, \x7b priority: 1, jobId: submissionId \x7d)`.  The function performs no
queue-length check and has no failure path of its own. -/
def addExecutionJob (q : QueueState) (submissionId language code input : String) :
    QueueState :=
  queueAdd q submissionId
    { submissionId := submissionId, language := language, code := code, input := input }

/-- The status classification in `setupJobProcessing`'s success path:
`const status = result.exitCode === 0 ? "completed" : "error"`. -/
def processJobStatus (r : ExecutionResult) : String :=
  if r.exitCode = 0 then "completed" else "error"

/-- The update object `setupJobProcessing` passes to `updateSubmission` after
an execution resolves: status from the exit code, the captured streams, the
exit code, and an explicit `finished_at`; neither `message` nor
`compile_output` is among the keys it writes. -/
def processJobUpdates (r : ExecutionResult) (now : Nat) : SubmissionUpdates :=
  { status := some (processJobStatus r)
    stdout := some r.stdout
    stderr := some r.stderr
    exit_code := some r.exitCode
    time_ms := some r.executionTime
    finished_at := some now }

/-- The update object `cancelJob` passes to `updateSubmission` when it finds
the Bull job: status `"error"` and a stderr note (plus a legacy
`completed_at`, see `SubmissionRow`); it passes no `message` and no
`finished_at`. -/
def cancelUpdates : SubmissionUpdates :=
  { status := some "error", stderr := some "Execution cancelled by user" }

/-- `cancelJob`: `queue.getJob(submissionId)` either finds the Bull job
(`jobFound`) — jobs are retained after completion by `removeOnComplete: 100`
/ `removeOnFail: 50`, so a terminal submission's job may still be found — or
does not.  When not found it returns `false` without touching the store;
when found it removes the job, stops the process, applies `cancelUpdates`
through `updateSubmission`, and returns `true`. -/
def cancelJob (jobFound : Bool) (row : SubmissionRow) (now : Nat) :
    Bool × SubmissionRow :=
  if jobFound then (true, updateSubmission row cancelUpdates now) else (false, row)

/-! ## The callback emitter: `lib/webhook.ts` -/

/-- One HTTP request as `sendWebhook` constructs it: the `fetch` call's URL,
method, and JSON-serialized submission record (modelled as the record). -/
structure WebhookRequest where
  url : String
  method : String
  payload : SubmissionRow
deriving Repr, DecidableEq

/-- Possible outcomes of the single `fetch` in `sendWebhook`. -/
inductive FetchOutcome
  | ok
  | nonOk
  | transportError
deriving Repr, DecidableEq

/-- The HTTP requests `sendWebhook` issues, as a function of the submission
and of how its single `fetch` turns out: nothing without a `callback_url`;
otherwise exactly one request, with `method: "PUT"`, whatever the outcome —
the non-ok branch and the catch block only log, and no code path issues a
second request. -/
def sendWebhookRequests (sub : SubmissionRow) (_outcome : FetchOutcome) :
    List WebhookRequest :=
  match sub.callback_url with
  | none => []
  | some url => [{ url := url, method := "PUT", payload := sub }]

/-! ## Concrete example inputs used by the theorems -/

/-- A compile child that exits normally with code 0. -/
def okCompileEvents : ChildEvents := { closeCode := some 0 }

/-- A run child on which the runner's wall-clock timer fired: `runCommand`
sent SIGKILL, so the `close` event reports `code = null`. -/
def sigkillTimeoutEvents : ChildEvents := { closeCode := none, timerFired := true }

/-- A compile child that exits with code 1 after printing a diagnostic. -/
def failedCompileEvents : ChildEvents :=
  { closeCode := some 1, stderrData := "main.cpp: error: expected semicolon" }

/-- A submission mid-execution. -/
def runningRowS1 : SubmissionRow := { id := "s1", status := "running", created_at := 5 }

/-- A submission already in a terminal state. -/
def completedRowS4 : SubmissionRow :=
  { id := "s4", status := "completed", created_at := 0, finished_at := some 5 }

/-- A terminal submission with a callback URL. -/
def callbackRowS5 : SubmissionRow :=
  { id := "s5", status := "completed", callback_url := some "http://cb.example/hook",
    created_at := 0, finished_at := some 3 }

/-- A queue already holding `maxQueueSizeConfig` pending jobs. -/
def pendingFullQueue : QueueState :=
  { jobs := (List.range maxQueueSizeConfig).map fun i =>
      (toString i, { submissionId := toString i, language := "python", code := "", input := "" }) }

/-- The empty queue. -/
def emptyQueue : QueueState := { jobs := [] }

/-- The Java source of spec scenario 6, declaring `public class Solution`. -/
def javaSolutionSource : String :=
  "public class Solution \x7b public static void main(String[] a)\x7b System.out.println(42);\x7d \x7d"

/-! ## Helper lemmas -/

/-- String concatenation is associative. -/
theorem str_append_assoc (a b c : String) : a ++ b ++ c = a ++ (b ++ c) := by
  cases a; cases b; cases c
  exact congrArg String.mk (List.append_assoc _ _ _)

/-- Substituting into the Java run template `java \x7bclassname\x7d` yields
`java <classname>`, whatever the file and output substitutions are (the
template contains neither `\x7bfile\x7d` nor `\x7boutput\x7d`). -/
theorem substJavaRunTemplate (f o cls : String) :
    substituteTemplate "java {classname}" f o cls = "java " ++ cls := by
  cases cls with
  | mk data =>
    have h : String.mk ('j' :: 'a' :: 'v' :: 'a' :: ' ' :: (data ++ [])) =
        String.mk ('j' :: 'a' :: 'v' :: 'a' :: ' ' :: data) := by
      rw [List.append_nil]
    exact h

/-- Adding a job whose id the queue already holds changes nothing. -/
theorem queueAdd_of_mem (q : QueueState) (id : String) (d : ExecutionJobData)
    (h : id ∈ queueKeys q) : queueAdd q id d = q := by
  unfold queueAdd
  rw [if_pos h]

/-- Adding a job with a fresh id appends it. -/
theorem queueAdd_of_not_mem (q : QueueState) (id : String) (d : ExecutionJobData)
    (h : id ∉ queueKeys q) : queueAdd q id d = { jobs := q.jobs ++ [(id, d)] } := by
  unfold queueAdd
  rw [if_neg h]

/-- After `queueAdd q id d`, the id is known to the queue. -/
theorem mem_queueKeys_queueAdd (q : QueueState) (id : String) (d : ExecutionJobData) :
    id ∈ queueKeys (queueAdd q id d) := by
  by_cases h : id ∈ queueKeys q
  · rw [queueAdd_of_mem q id d h]; exact h
  · rw [queueAdd_of_not_mem q id d h]
    unfold queueKeys
    simp

/-! ## Claim theorems -/

/-- Claim C1 (code bug).  The claim says a run terminated for exceeding its
wall-clock limit ends as `time_limit_exceeded` with message "Wall time limit
exceeded", never a success status.  In the code, the timeout handler
SIGKILLs the child, the `close` event then reports `code = null`,
`runCommand` turns that into `exitCode: code || 0 = 0`, and
`setupJobProcessing` classifies `exitCode === 0` as `"completed"` — a
success status — and never writes `message`.  Evaluated here on a run whose
timer fired and whose child was killed (close code `null`). -/
theorem wall_timeout_run_reported_completed :
    (executeLocally cConfig "int main(void)" okCompileEvents sigkillTimeoutEvents 250 3000).exitCode = 0 ∧
    processJobStatus (executeLocally cConfig "int main(void)" okCompileEvents sigkillTimeoutEvents 250 3000) = "completed" ∧
    (updateSubmission runningRowS1 (processJobUpdates (executeLocally cConfig "int main(void)" okCompileEvents sigkillTimeoutEvents 250 3000) 8) 8).status = "completed" ∧
    (updateSubmission runningRowS1 (processJobUpdates (executeLocally cConfig "int main(void)" okCompileEvents sigkillTimeoutEvents 250 3000) 8) 8).message = none := by
  decide

/-- Claim C2, counterexample.  A C++ submission whose compile step exits 1
with a diagnostic: the final status is `"error"`, not `compilation_error`,
and `compile_output` is left unset (the claim requires it non-empty) — the
executor does stop before the run step. -/
theorem compile_failure_counterexample :
    (updateSubmission runningRowS1 (processJobUpdates (executeLocally cppConfig "int main()" failedCompileEvents okCompileEvents 400 0) 9) 9).status = "error" ∧
    (updateSubmission runningRowS1 (processJobUpdates (executeLocally cppConfig "int main()" failedCompileEvents okCompileEvents 400 0) 9) 9).status ≠ "compilation_error" ∧
    (updateSubmission runningRowS1 (processJobUpdates (executeLocally cppConfig "int main()" failedCompileEvents okCompileEvents 400 0) 9) 9).compile_output = none ∧
    localRunsProgram cppConfig failedCompileEvents 400 = false := by
  decide

/-- Claim C2, amended.  For every submission in a language with a compile
step whose compilation reports a non-zero exit code, the executor stops
before running the program; the result carries the compiler's stderr and
empty stdout, the final status is `"error"`, and the stored record's
`compile_output` is untouched (the job processor never writes that column). -/
theorem compile_failure_stops_with_error_status
    (cfg : LanguageConfig) (tmpl code : String) (cev rev : ChildEvents)
    (ct rt now : Nat) (row : SubmissionRow)
    (hc : cfg.compileCommand = some tmpl)
    (hx : (runCommand cev ct).exitCode ≠ 0) :
    localRunsProgram cfg cev ct = false ∧
    executeLocally cfg code cev rev ct rt =
      { stdout := "", stderr := (runCommand cev ct).stderr,
        exitCode := (runCommand cev ct).exitCode,
        executionTime := (runCommand cev ct).executionTime,
        memoryUsage := 0, error := some "Compilation failed" } ∧
    processJobStatus (executeLocally cfg code cev rev ct rt) = "error" ∧
    (updateSubmission row (processJobUpdates (executeLocally cfg code cev rev ct rt) now) now).compile_output
      = row.compile_output := by
  have hexec : executeLocally cfg code cev rev ct rt =
      { stdout := "", stderr := (runCommand cev ct).stderr,
        exitCode := (runCommand cev ct).exitCode,
        executionTime := (runCommand cev ct).executionTime,
        memoryUsage := 0, error := some "Compilation failed" } := by
    unfold executeLocally
    rw [hc]
    simp [hx]
  have hrun : localRunsProgram cfg cev ct = false := by
    unfold localRunsProgram
    rw [hc]
    simp [hx]
  have hstatus : processJobStatus (executeLocally cfg code cev rev ct rt) = "error" := by
    rw [hexec]
    unfold processJobStatus
    simp [hx]
  refine ⟨hrun, hexec, hstatus, ?_⟩
  unfold updateSubmission processJobUpdates
  simp

/-- Witness for `compile_failure_stops_with_error_status` at the concrete
failed C++ compile. -/
theorem compile_failure_stops_with_error_status_witness :
    localRunsProgram cppConfig failedCompileEvents 400 = false ∧
    processJobStatus (executeLocally cppConfig "int main()" failedCompileEvents okCompileEvents 400 0) = "error" := by
  have h := compile_failure_stops_with_error_status cppConfig
    "g++ -o {output} {file} -std=c++17" "int main()" failedCompileEvents okCompileEvents
    400 0 9 runningRowS1 rfl (by decide)
  exact ⟨h.1, h.2.2.1⟩

/-- Claim C3, counterexample.  Cancelling a running submission whose queue
job is found yields status `"error"` (not `cancelled`), leaves `message`
unset (the note "Execution cancelled by user" goes to stderr, and is not the
claimed "Execution cancelled"); and cancelling an already-terminal
submission whose Bull job is still retained (`removeOnComplete: 100` keeps
completed jobs) is not a no-op: the record is overwritten. -/
theorem cancel_counterexample :
    (cancelJob true runningRowS1 7).2.status = "error" ∧
    (cancelJob true runningRowS1 7).2.status ≠ "cancelled" ∧
    (cancelJob true runningRowS1 7).2.message = none ∧
    (cancelJob true runningRowS1 7).2.stderr ≠ some "Execution cancelled" ∧
    (cancelJob true completedRowS4 7).2 ≠ completedRowS4 := by
  decide

/-- Claim C3, amended.  Cancelling a submission whose queue job is found
updates it to status `"error"` with stderr "Execution cancelled by user",
leaving `message` untouched — terminal or not; when no queue job is found,
`cancelJob` returns false and changes nothing. -/
theorem cancelJob_behavior (row : SubmissionRow) (now : Nat) :
    (cancelJob true row now).2.status = "error" ∧
    (cancelJob true row now).2.stderr = some "Execution cancelled by user" ∧
    (cancelJob true row now).2.message = row.message ∧
    cancelJob false row now = (false, row) := by
  refine ⟨rfl, rfl, rfl, rfl⟩

/-- Claim C4, counterexample.  The single webhook request for a terminal
submission with a callback URL uses HTTP method PUT, not the claimed POST. -/
theorem webhook_method_counterexample :
    (sendWebhookRequests callbackRowS5 FetchOutcome.nonOk).map WebhookRequest.method = ["PUT"] ∧
    ∀ r ∈ sendWebhookRequests callbackRowS5 FetchOutcome.nonOk, r.method ≠ "POST" := by
  decide

/-- Claim C4, amended.  For every submission with a callback URL, `sendWebhook`
delivers the submission record to that URL in exactly one HTTP PUT request,
whatever the outcome of the attempt (non-2xx and transport errors are only
logged; nothing retries). -/
theorem sendWebhook_single_put_attempt (sub : SubmissionRow) (url : String)
    (outcome : FetchOutcome) (h : sub.callback_url = some url) :
    sendWebhookRequests sub outcome = [{ url := url, method := "PUT", payload := sub }] := by
  unfold sendWebhookRequests
  rw [h]

/-- Witness for `sendWebhook_single_put_attempt` at a concrete submission,
with the single fetch failing at transport level. -/
theorem sendWebhook_single_put_attempt_witness :
    sendWebhookRequests callbackRowS5 FetchOutcome.transportError =
      [{ url := "http://cb.example/hook", method := "PUT", payload := callbackRowS5 }] :=
  sendWebhook_single_put_attempt callbackRowS5 "http://cb.example/hook"
    FetchOutcome.transportError rfl

/-- Claim C5, counterexample.  With `maxQueueSizeConfig` (= 100) jobs already
pending, submitting a fresh id still enqueues — the queue grows to 101 and no
`QueueFullError` exists anywhere in `addExecutionJob` (the function has no
failure path). -/
theorem queue_full_counterexample :
    pendingFullQueue.jobs.length = maxQueueSizeConfig ∧
    (addExecutionJob pendingFullQueue "overflow" "python" "print(1)" "").jobs.length =
      maxQueueSizeConfig + 1 := by
  decide

/-- Claim C5, amended.  `addExecutionJob` enforces no backpressure: a
submission with a fresh id is enqueued no matter how many jobs are pending
(the `max_queue_size` of `getConfigInfo` is informational only), and the call
never fails with a queue-full error. -/
theorem addExecutionJob_no_backpressure (q : QueueState) (id language code input : String)
    (h : id ∉ queueKeys q) :
    (addExecutionJob q id language code input).jobs.length = q.jobs.length + 1 := by
  unfold addExecutionJob queueAdd
  rw [if_neg h]
  simp

/-- Witness for `addExecutionJob_no_backpressure` at the empty queue. -/
theorem addExecutionJob_no_backpressure_witness :
    (addExecutionJob emptyQueue "w5" "python" "x" "").jobs.length = 1 :=
  addExecutionJob_no_backpressure emptyQueue "w5" "python" "x" "" (by decide)

/-- Claim C6 (confirmed).  Submitting the same submission id twice is
idempotent: because `addExecutionJob` passes `jobId: submissionId` and Bull's
`add` ignores an id it already holds, the second call returns the queue
unchanged (a no-op that still succeeds), and when the id was fresh the queue
holds exactly one job under it — one execution. -/
theorem addExecutionJob_idempotent (q : QueueState) (id l c i l2 c2 i2 : String) :
    addExecutionJob (addExecutionJob q id l c i) id l2 c2 i2 = addExecutionJob q id l c i ∧
    (id ∉ queueKeys q →
      (queueKeys (addExecutionJob (addExecutionJob q id l c i) id l2 c2 i2)).count id = 1) := by
  have hmem : id ∈ queueKeys (addExecutionJob q id l c i) :=
    mem_queueKeys_queueAdd q id _
  have hfix : addExecutionJob (addExecutionJob q id l c i) id l2 c2 i2 =
      addExecutionJob q id l c i :=
    queueAdd_of_mem _ id _ hmem
  refine ⟨hfix, fun hnot => ?_⟩
  have hkeys : queueKeys (addExecutionJob q id l c i) = queueKeys q ++ [id] := by
    unfold addExecutionJob
    rw [queueAdd_of_not_mem q id _ hnot]
    unfold queueKeys
    simp
  rw [hfix, hkeys, List.count_append]
  rw [List.count_eq_zero.mpr hnot]
  simp

/-- Witness for `addExecutionJob_idempotent`: the same id submitted twice to
the empty queue. -/
theorem addExecutionJob_idempotent_witness :
    addExecutionJob (addExecutionJob emptyQueue "a1" "python" "x" "") "a1" "javascript" "y" "" =
      addExecutionJob emptyQueue "a1" "python" "x" "" ∧
    (queueKeys (addExecutionJob (addExecutionJob emptyQueue "a1" "python" "x" "") "a1" "javascript" "y" "")).count "a1" = 1 := by
  have h := addExecutionJob_idempotent emptyQueue "a1" "python" "x" "" "javascript" "y" ""
  exact ⟨h.1, h.2 (by decide)⟩

/-- Claim C7, counterexample.  The claim says the child is started from an
argument vector with no shell interpreting the command line; in fact the run
step of a C submission is spawned as program `sh` with the entire expanded
command line in a single `-c` argument, which the shell interprets. -/
theorem shell_invocation_counterexample :
    (spawnArgv false (localRunCommandLine cConfig "int main(void)")).1 = "sh" ∧
    (spawnArgv false (localRunCommandLine cConfig "int main(void)")).2 = ["-c", "./main"] := by
  decide

/-- Claim C7, amended.  The `\x7bfile\x7d` / `\x7boutput\x7d` /
`\x7bclassname\x7d` placeholders are expanded immediately before invocation
(shown here for the python run, the C run and the C compile commands), but
the expanded command line is then handed as one string to a shell — `sh -c`
on Unix, `cmd /C` on Windows — rather than being passed as an argument
vector. -/
theorem template_expansion_through_shell :
    (∀ code : String, spawnArgv false (localRunCommandLine pythonConfig code) = ("sh", ["-c", "python main.py"])) ∧
    (∀ code : String, spawnArgv false (localRunCommandLine cConfig code) = ("sh", ["-c", "./main"])) ∧
    (∀ code : String, localCompileCommandLine cConfig code = some "gcc -o main main.c -std=c17 -lm") := by
  exact ⟨fun _ => rfl, fun _ => rfl, fun _ => rfl⟩

/-- Claim C8, counterexample.  An update moving a running submission to the
terminal status `compilation_error` without an explicit `finished_at` leaves
`finished_at` unset: the SQL CASE in `updateSubmission` only refreshes it for
the statuses `completed`, `error`, `timeout`, `accepted`, `runtime_error` —
and tests them against the pre-update row at that. -/
theorem finished_at_counterexample :
    (updateSubmission { id := "s6", status := "running", created_at := 2 } { status := some "compilation_error" } 9).status = "compilation_error" ∧
    (updateSubmission { id := "s6", status := "running", created_at := 2 } { status := some "compilation_error" } 9).finished_at = none := by
  decide

/-- Claim C8, amended.  For an update of a running submission (whatever
status it moves to, terminal or not), `finished_at` becomes set if and only
if the caller passes it explicitly; the CASE fallback never fires because it
tests the pre-update status against
`completed/error/timeout/accepted/runtime_error`.  No `finished_at ≥
created_at` relation is enforced anywhere. -/
theorem terminal_update_finished_at_iff_explicit (row : SubmissionRow)
    (u : SubmissionUpdates) (now : Nat)
    (hs : row.status = "running") (hf : row.finished_at = none) :
    ((updateSubmission row u now).finished_at ≠ none ↔ u.finished_at ≠ none) := by
  unfold updateSubmission
  cases h : u.finished_at with
  | some t => simp [h]
  | none => simp [h, hs, hf, finishedAtAutoStatuses]

/-- Witness for `terminal_update_finished_at_iff_explicit`: a running
submission updated to `time_limit_exceeded` with no explicit `finished_at`. -/
theorem terminal_update_finished_at_iff_explicit_witness :
    ((updateSubmission runningRowS1 { status := some "time_limit_exceeded" } 4).finished_at ≠ none ↔
      ({ status := some "time_limit_exceeded" } : SubmissionUpdates).finished_at ≠ none) :=
  terminal_update_finished_at_iff_explicit runningRowS1 { status := some "time_limit_exceeded" } 4 rfl rfl

/-- Claim C9 (confirmed).  For every Java submission whose source matches
`public\s+class\s+(\w+)`, the file is written as `<Name>.java` and the run
command expands to `java <Name>`; when the rule does not match, the fallback
is `Main.java` / `java Main`.  In particular the `public class Solution`
source of spec scenario 6 yields `Solution.java` and `java Solution`. -/
theorem java_classname_rule :
    (∀ code cls : String, extractJavaClassName code = some cls →
      localFilePlan javaConfig code = { filename := cls ++ ".java", classname := cls } ∧
      localRunCommandLine javaConfig code = "java " ++ cls) ∧
    (∀ code : String, extractJavaClassName code = none →
      localFilePlan javaConfig code = { filename := "Main.java", classname := "Main" } ∧
      localRunCommandLine javaConfig code = "java Main") ∧
    (extractJavaClassName javaSolutionSource = some "Solution" ∧
     localFilePlan javaConfig javaSolutionSource = { filename := "Solution.java", classname := "Solution" } ∧
     localRunCommandLine javaConfig javaSolutionSource = "java Solution") := by
  have hstep : ∀ code : String, localFilePlan javaConfig code =
      (match extractJavaClassName code with
       | some n => { filename := n ++ "." ++ "java", classname := n }
       | none => { filename := "Main." ++ "java", classname := "Main" } : FilePlan) :=
    fun _ => rfl
  refine ⟨fun code cls h => ?_, fun code h => ?_, ?_⟩
  · have hfp : localFilePlan javaConfig code = { filename := cls ++ ".java", classname := cls } := by
      rw [hstep, h]
      show ({ filename := cls ++ "." ++ "java", classname := cls } : FilePlan) = _
      rw [str_append_assoc]
      rfl
    have hrun : localRunCommandLine javaConfig code = "java " ++ cls := by
      unfold localRunCommandLine
      rw [hfp]
      exact substJavaRunTemplate (cls ++ ".java") "main" cls
    exact ⟨hfp, hrun⟩
  · have hfp : localFilePlan javaConfig code = { filename := "Main.java", classname := "Main" } := by
      rw [hstep, h]
      rfl
    have hrun : localRunCommandLine javaConfig code = "java Main" := by
      unfold localRunCommandLine
      rw [hfp]
      rfl
    exact ⟨hfp, hrun⟩
  · exact ⟨by decide, by decide, by decide⟩

/-- Witness for `java_classname_rule` at the `public class Solution` source. -/
theorem java_classname_rule_witness :
    localFilePlan javaConfig javaSolutionSource = { filename := "Solution.java", classname := "Solution" } ∧
    localRunCommandLine javaConfig javaSolutionSource = "java Solution" :=
  java_classname_rule.1 javaSolutionSource "Solution" java_classname_rule.2.2.1

/-- Claim C10 (confirmed).  Whenever a child's `close` event carries a null
exit code — which is exactly the signal-terminated case, including the
runner's own timeout SIGKILL — `runCommand` reports `exitCode = 0` via
`code || 0`, and the downstream classification (`exitCode === 0 →
"completed"`) treats the run as successful, indistinguishable from a child
that genuinely exited 0. -/
theorem null_close_code_reported_success (ev : ChildEvents) (ms : Nat)
    (herr : ev.errorEvent = none) (hcode : ev.closeCode = none) :
    (runCommand ev ms).exitCode = 0 ∧
    processJobStatus (runCommand ev ms) = "completed" ∧
    processJobStatus (runCommand ev ms) =
      processJobStatus (runCommand { ev with closeCode := some 0, timerFired := false } ms) := by
  unfold runCommand processJobStatus
  rw [herr, hcode]
  simp [jsOrZero]

/-- Witness for `null_close_code_reported_success` at the timed-out,
SIGKILLed child. -/
theorem null_close_code_reported_success_witness :
    (runCommand sigkillTimeoutEvents 3000).exitCode = 0 ∧
    processJobStatus (runCommand sigkillTimeoutEvents 3000) = "completed" := by
  have h := null_close_code_reported_success sigkillTimeoutEvents 3000 rfl rfl
  exact ⟨h.1, h.2.1⟩

end LabForCode
